import Mathlib

/-!
Verification of the cui Configuration Store and its consumers.

The Configuration Store (ConfigService) implementation is not part of the
reviewed sources; only its unit tests (tests/unit/config-interface.test.ts)
and its consumers (routes/system.routes.ts, services/notification-service.ts,
services/model-info-service.ts) are.  The Store itself is therefore modelled
from the specification (sections 3, 4.1 to 4.5 and 7 of spec.md), with the
concrete default values pinned by the unit tests where the tests pin them.
The consumers are embedded directly from their TypeScript sources.
-/

/-- Log level enumeration of the SettingsDocument (spec section 3). -/
inductive LogLevel where
  | debug
  | info
  | warn
  | error
deriving DecidableEq

/-- Color scheme enumeration of InterfaceSettings (spec section 3). -/
inductive ColorScheme where
  | auto
  | light
  | dark
  | system
deriving DecidableEq

/-- Modelled from the spec: NotificationSettings (spec section 3).  The
legacy ntfyUrl field is kept because notification-service.ts reads
config.interface.notifications?.ntfyUrl; it is optional. -/
structure NotificationSettings where
  enabled : Bool
  showOnSuccess : Bool
  showOnError : Bool
  showOnStart : Bool
  ntfyUrl : Option String
deriving DecidableEq

/-- Modelled from the spec: InterfaceSettings (spec section 3).  The
notifications sub-object is optional; notification-service.ts reads it
through optional chaining. -/
structure InterfaceSettings where
  colorScheme : ColorScheme
  language : String
  notifications : Option NotificationSettings
deriving DecidableEq

/-- Model information entry, from model-info-service.ts (interface ModelInfo). -/
structure ModelInfo where
  value : String
  label : String
  description : String
deriving DecidableEq

/-- Modelled from the spec: the SettingsDocument root entity (spec section 3).
The machine identifier field is named machine_id because both consumers in
the sources read config.machine_id (system.routes.ts line 156,
notification-service.ts line 41). -/
structure SettingsDocument where
  claudeExecutablePath : String
  logLevel : LogLevel
  serverPort : Int
  maxConversations : Int
  conversationTimeout : Int
  healthCheckInterval : Int
  machine_id : String
  models : Option (List (String × List ModelInfo))
  interface : InterfaceSettings
deriving DecidableEq

/-- Modelled from the spec: a partial NotificationSettings as supplied by an
update or read from disk; every field may be absent. -/
structure PartialNotificationSettings where
  enabled : Option Bool
  showOnSuccess : Option Bool
  showOnError : Option Bool
  showOnStart : Option Bool
  ntfyUrl : Option String
deriving DecidableEq

/-- Modelled from the spec: a partial InterfaceSettings. -/
structure PartialInterfaceSettings where
  colorScheme : Option ColorScheme
  language : Option String
  notifications : Option PartialNotificationSettings
deriving DecidableEq

/-- Modelled from the spec: a partial SettingsDocument, the shape of an
on-disk JSON object and of the argument of updateConfig. -/
structure PartialSettingsDocument where
  claudeExecutablePath : Option String
  logLevel : Option LogLevel
  serverPort : Option Int
  maxConversations : Option Int
  conversationTimeout : Option Int
  healthCheckInterval : Option Int
  machine_id : Option String
  models : Option (List (String × List ModelInfo))
  interface : Option PartialInterfaceSettings
deriving DecidableEq

/-- The partial document with every field absent; the parse of the JSON
text of an empty object. -/
def emptyPartialDoc : PartialSettingsDocument :=
  { claudeExecutablePath := none
    logLevel := none
    serverPort := none
    maxConversations := none
    conversationTimeout := none
    healthCheckInterval := none
    machine_id := none
    models := none
    interface := none }

/-- Modelled from the spec: default NotificationSettings of the Default
Schema Registry; the concrete values are pinned by
tests/unit/config-interface.test.ts lines 29 to 34. -/
def defaultNotificationSettings : NotificationSettings :=
  { enabled := true
    showOnSuccess := false
    showOnError := true
    showOnStart := true
    ntfyUrl := none }

/-- Modelled from the spec: default InterfaceSettings of the Default Schema
Registry; colorScheme and language are pinned by the unit tests. -/
def defaultInterfaceSettings : InterfaceSettings :=
  { colorScheme := ColorScheme.auto
    language := "en"
    notifications := some defaultNotificationSettings }

/-- Modelled from the spec: the Default Schema Registry (spec section 4.1),
a complete default SettingsDocument.  claudeExecutablePath is pinned to
"claude" by the unit test at line 117; the numeric defaults are not pinned
by the spec or the tests and are chosen arbitrarily. -/
def defaultSettings : SettingsDocument :=
  { claudeExecutablePath := "claude"
    logLevel := LogLevel.info
    serverPort := 3001
    maxConversations := 10
    conversationTimeout := 3600000
    healthCheckInterval := 30000
    machine_id := "machine-0"
    models := none
    interface := defaultInterfaceSettings }

/-- Modelled from the spec: deep merge at the notifications level (spec
section 4.2); a field present in the override wins, an absent field keeps
the base value. -/
def mergeNotifications (b : NotificationSettings)
    (p : PartialNotificationSettings) : NotificationSettings :=
  { enabled := p.enabled.getD b.enabled
    showOnSuccess := p.showOnSuccess.getD b.showOnSuccess
    showOnError := p.showOnError.getD b.showOnError
    showOnStart := p.showOnStart.getD b.showOnStart
    ntfyUrl :=
      match p.ntfyUrl with
      | none => b.ntfyUrl
      | some u => some u }

/-- Modelled from the spec: deep merge at the interface level (spec section
4.2); the notifications sub-object recurses, scalar fields override.  When
the base has no notifications object the registry default serves as the
recursion base. -/
def mergeInterface (b : InterfaceSettings)
    (p : PartialInterfaceSettings) : InterfaceSettings :=
  { colorScheme := p.colorScheme.getD b.colorScheme
    language := p.language.getD b.language
    notifications :=
      match p.notifications with
      | none => b.notifications
      | some pn =>
          some (mergeNotifications (b.notifications.getD defaultNotificationSettings) pn) }

/-- Modelled from the spec: the deep-merge algorithm of the Loader/Migrator
and of updateConfig (spec sections 4.2 and 4.4): objects recurse, primitives
and arrays override wholesale, absent keys keep the base value. -/
def mergeDoc (b : SettingsDocument) (p : PartialSettingsDocument) : SettingsDocument :=
  { claudeExecutablePath := p.claudeExecutablePath.getD b.claudeExecutablePath
    logLevel := p.logLevel.getD b.logLevel
    serverPort := p.serverPort.getD b.serverPort
    maxConversations := p.maxConversations.getD b.maxConversations
    conversationTimeout := p.conversationTimeout.getD b.conversationTimeout
    healthCheckInterval := p.healthCheckInterval.getD b.healthCheckInterval
    machine_id := p.machine_id.getD b.machine_id
    models :=
      match p.models with
      | none => b.models
      | some m => some m
    interface :=
      match p.interface with
      | none => b.interface
      | some pi => mergeInterface b.interface pi }

/-- View of a full NotificationSettings as a partial one with every field
present; the parse of its serialized JSON. -/
def toPartialNotifView (n : NotificationSettings) : PartialNotificationSettings :=
  { enabled := some n.enabled
    showOnSuccess := some n.showOnSuccess
    showOnError := some n.showOnError
    showOnStart := some n.showOnStart
    ntfyUrl := n.ntfyUrl }

/-- View of a full InterfaceSettings as a partial one with every field
present. -/
def toPartialInterfaceView (i : InterfaceSettings) : PartialInterfaceSettings :=
  { colorScheme := some i.colorScheme
    language := some i.language
    notifications := i.notifications.map toPartialNotifView }

/-- View of a full SettingsDocument as a partial one with every known field
present; the parse of the pretty-printed JSON that the Persistent Writer
emits. -/
def toPartialView (d : SettingsDocument) : PartialSettingsDocument :=
  { claudeExecutablePath := some d.claudeExecutablePath
    logLevel := some d.logLevel
    serverPort := some d.serverPort
    maxConversations := some d.maxConversations
    conversationTimeout := some d.conversationTimeout
    healthCheckInterval := some d.healthCheckInterval
    machine_id := some d.machine_id
    models := d.models
    interface := some (toPartialInterfaceView d.interface) }

/-- Parse outcome of the on-disk settings file: the file may be absent,
hold text that is not valid JSON, hold valid JSON that is not an object, or
hold a JSON object (represented by its typed partial view). -/
inductive FileContent where
  | absent
  | invalid
  | jsonNonObject
  | object (p : PartialSettingsDocument)
deriving DecidableEq

/-- Modelled from the spec: the Loader/Migrator result for a JSON object on
disk (spec section 4.2); wasMigrated is true when the merged document
differs structurally from the raw loaded object. -/
def loadObject (p : PartialSettingsDocument) : SettingsDocument × Bool :=
  let d := mergeDoc defaultSettings p
  (d, decide (toPartialView d ≠ p))

/-- Modelled from the spec: the Loader/Migrator (spec section 4.2).  An
absent file yields the full defaults with wasMigrated true; text that is
not valid JSON, or valid JSON that is not an object, is treated as the
empty object; loading is total, so it never throws. -/
def loadDocument : FileContent → SettingsDocument × Bool
  | FileContent.absent => (defaultSettings, true)
  | FileContent.invalid => loadObject emptyPartialDoc
  | FileContent.jsonNonObject => loadObject emptyPartialDoc
  | FileContent.object p => loadObject p

/-- Modelled from the spec: the Persistent Writer serializes the document to
pretty-printed JSON (spec section 4.3); re-parsing that text yields the
object with every known field present. -/
def serializeDoc (d : SettingsDocument) : FileContent :=
  FileContent.object (toPartialView d)

/-- Modelled from the spec: error taxonomy of the Store (spec section 7). -/
inductive StoreError where
  | notInitialized
  | storeWriteError
deriving DecidableEq

/-- Modelled from the spec: the Store state machine (spec section 4.4),
Uninitialized until initialize completes, then Ready with the cached
document. -/
inductive StoreState where
  | uninitialized
  | ready (doc : SettingsDocument)
deriving DecidableEq

/-- Modelled from the spec: initialize loads or creates the file and caches
the merged document (spec section 4.5). -/
def initializeStore (c : FileContent) : StoreState :=
  StoreState.ready (loadDocument c).1

/-- Modelled from the spec: getConfig returns the cached document, or fails
with NotInitialized in the Uninitialized state (spec sections 4.4 and 7). -/
def getConfig : StoreState → Except StoreError SettingsDocument
  | StoreState.uninitialized => Except.error StoreError.notInitialized
  | StoreState.ready d => Except.ok d

/-- Modelled from the spec: getInterface returns the interface section of
getConfig (spec section 4.4). -/
def getInterface : StoreState → Except StoreError InterfaceSettings
  | StoreState.uninitialized => Except.error StoreError.notInitialized
  | StoreState.ready d => Except.ok d.interface

/-- Modelled from the spec: updateConfig deep-merges the partial onto the
cached document and persists it; writeOk tells whether the disk write
succeeded.  On write failure the cache is left unchanged and a
StoreWriteError is raised (spec sections 4.3, 4.4 and 7). -/
def updateConfig (s : StoreState) (p : PartialSettingsDocument)
    (writeOk : Bool) : StoreState × Except StoreError Unit :=
  match s with
  | StoreState.uninitialized => (s, Except.error StoreError.notInitialized)
  | StoreState.ready d =>
      match writeOk with
      | true => (StoreState.ready (mergeDoc d p), Except.ok ())
      | false => (StoreState.ready d, Except.error StoreError.storeWriteError)

/-- Modelled from the spec: the partial document that updateInterface hands
to updateConfig (spec section 4.4). -/
def interfaceOnlyPatch (pi : PartialInterfaceSettings) : PartialSettingsDocument :=
  { emptyPartialDoc with interface := some pi }

/-- Modelled from the spec: updateInterface is sugar for updateConfig with
an interface-only partial (spec section 4.4). -/
def updateInterface (s : StoreState) (pi : PartialInterfaceSettings)
    (writeOk : Bool) : StoreState × Except StoreError Unit :=
  updateConfig s (interfaceOnlyPatch pi) writeOk

/-- C1: loading a file that contains exactly the empty JSON object yields,
after initialize, a document structurally equal to the full default
document of the Default Schema Registry, with claudeExecutablePath and the
interface section present at their default values. -/
theorem emptyFile_yields_full_defaults :
    initializeStore (FileContent.object emptyPartialDoc) = StoreState.ready defaultSettings
    ∧ getConfig (initializeStore (FileContent.object emptyPartialDoc))
        = Except.ok defaultSettings
    ∧ defaultSettings.claudeExecutablePath = "claude"
    ∧ defaultSettings.interface = defaultInterfaceSettings
    ∧ defaultSettings.interface.notifications = some defaultNotificationSettings := by
  refine ⟨rfl, rfl, rfl, rfl, rfl⟩

/-- C5: in the Uninitialized state every accessor other than initialize
fails with the NotInitialized error. -/
theorem uninitialized_accessors_fail :
    getConfig StoreState.uninitialized = Except.error StoreError.notInitialized
    ∧ getInterface StoreState.uninitialized = Except.error StoreError.notInitialized
    ∧ ∀ (p : PartialSettingsDocument) (pi : PartialInterfaceSettings) (w : Bool),
        updateConfig StoreState.uninitialized p w
          = (StoreState.uninitialized, Except.error StoreError.notInitialized)
        ∧ updateInterface StoreState.uninitialized pi w
          = (StoreState.uninitialized, Except.error StoreError.notInitialized) := by
  refine ⟨rfl, rfl, fun p pi w => ⟨rfl, rfl⟩⟩

/-- C2: loading a file that holds only system fields and no interface key
yields a document whose interface section equals the default
InterfaceSettings, while every system field present on disk keeps its
on-disk value. -/
theorem noInterfaceKey_defaults_interface_preserves_system
    (p : PartialSettingsDocument) (h : p.interface = none) :
    (loadDocument (FileContent.object p)).1.interface = defaultInterfaceSettings
    ∧ (∀ v, p.claudeExecutablePath = some v →
        (loadDocument (FileContent.object p)).1.claudeExecutablePath = v)
    ∧ (∀ v, p.logLevel = some v → (loadDocument (FileContent.object p)).1.logLevel = v)
    ∧ (∀ v, p.serverPort = some v → (loadDocument (FileContent.object p)).1.serverPort = v)
    ∧ (∀ v, p.maxConversations = some v →
        (loadDocument (FileContent.object p)).1.maxConversations = v)
    ∧ (∀ v, p.conversationTimeout = some v →
        (loadDocument (FileContent.object p)).1.conversationTimeout = v)
    ∧ (∀ v, p.healthCheckInterval = some v →
        (loadDocument (FileContent.object p)).1.healthCheckInterval = v)
    ∧ (∀ v, p.machine_id = some v → (loadDocument (FileContent.object p)).1.machine_id = v)
    ∧ (∀ v, p.models = some v → (loadDocument (FileContent.object p)).1.models = some v) := by
  simp only [loadDocument, loadObject, mergeDoc, h]
  refine ⟨rfl, ?_, ?_, ?_, ?_, ?_, ?_, ?_, ?_⟩ <;>
    intro v hv <;> simp [hv]

/-- Witness for C2 at the concrete legacy document of the unit test
(claudeExecutablePath "claude", logLevel info, serverPort 3000,
maxConversations 10, conversationTimeout 3600000, healthCheckInterval
30000, no interface key). -/
theorem noInterfaceKey_defaults_interface_preserves_system_witness :
    (loadDocument (FileContent.object
      { claudeExecutablePath := some "claude"
        logLevel := some LogLevel.info
        serverPort := some 3000
        maxConversations := some 10
        conversationTimeout := some 3600000
        healthCheckInterval := some 30000
        machine_id := none
        models := none
        interface := none })).1.interface = defaultInterfaceSettings
    ∧ (loadDocument (FileContent.object
      { claudeExecutablePath := some "claude"
        logLevel := some LogLevel.info
        serverPort := some 3000
        maxConversations := some 10
        conversationTimeout := some 3600000
        healthCheckInterval := some 30000
        machine_id := none
        models := none
        interface := none })).1.claudeExecutablePath = "claude" := by
  have h := noInterfaceKey_defaults_interface_preserves_system
    { claudeExecutablePath := some "claude"
      logLevel := some LogLevel.info
      serverPort := some 3000
      maxConversations := some 10
      conversationTimeout := some 3600000
      healthCheckInterval := some 30000
      machine_id := none
      models := none
      interface := none } rfl
  exact ⟨h.1, h.2.1 "claude" rfl⟩

/-- C3: on any initialized Store whose cached document carries a
notifications object, updating the interface with a partial that sets only
notifications.enabled to false leaves showOnSuccess, showOnError and
showOnStart (and the rest of the interface) at their prior values and only
flips enabled: the merge recurses at every nesting level. -/
theorem updateInterface_enabled_only_merges_recursively
    (d : SettingsDocument) (bn : NotificationSettings)
    (h : d.interface.notifications = some bn) :
    getInterface (updateInterface (StoreState.ready d)
        { colorScheme := none
          language := none
          notifications := some
            { enabled := some false
              showOnSuccess := none
              showOnError := none
              showOnStart := none
              ntfyUrl := none } } true).1
      = Except.ok
          { colorScheme := d.interface.colorScheme
            language := d.interface.language
            notifications := some
              { enabled := false
                showOnSuccess := bn.showOnSuccess
                showOnError := bn.showOnError
                showOnStart := bn.showOnStart
                ntfyUrl := bn.ntfyUrl } } := by
  simp [updateInterface, updateConfig, interfaceOnlyPatch, emptyPartialDoc,
    mergeDoc, mergeInterface, mergeNotifications, getInterface, h]

/-- Witness for C3 at the concrete state reached by initializing on an
absent file: the defaults carry a notifications object, and the update
flips only enabled. -/
theorem updateInterface_enabled_only_merges_recursively_witness :
    defaultSettings.interface.notifications = some defaultNotificationSettings
    ∧ getInterface (updateInterface (StoreState.ready defaultSettings)
        { colorScheme := none
          language := none
          notifications := some
            { enabled := some false
              showOnSuccess := none
              showOnError := none
              showOnStart := none
              ntfyUrl := none } } true).1
      = Except.ok
          { colorScheme := defaultSettings.interface.colorScheme
            language := defaultSettings.interface.language
            notifications := some
              { enabled := false
                showOnSuccess := defaultNotificationSettings.showOnSuccess
                showOnError := defaultNotificationSettings.showOnError
                showOnStart := defaultNotificationSettings.showOnStart
                ntfyUrl := defaultNotificationSettings.ntfyUrl } } :=
  ⟨rfl, updateInterface_enabled_only_merges_recursively defaultSettings
    defaultNotificationSettings rfl⟩

/-- C6: when the disk write fails, updateConfig and updateInterface raise a
StoreWriteError and leave the cached document exactly as it was, so a
subsequent read returns the pre-update state. -/
theorem writeFailure_raises_and_leaves_cache
    (d : SettingsDocument) (p : PartialSettingsDocument)
    (pi : PartialInterfaceSettings) :
    updateConfig (StoreState.ready d) p false
      = (StoreState.ready d, Except.error StoreError.storeWriteError)
    ∧ updateInterface (StoreState.ready d) pi false
      = (StoreState.ready d, Except.error StoreError.storeWriteError)
    ∧ getConfig (updateConfig (StoreState.ready d) p false).1 = Except.ok d
    ∧ getInterface (updateInterface (StoreState.ready d) pi false).1
      = Except.ok d.interface := by
  refine ⟨rfl, rfl, rfl, rfl⟩

/-- C7: file content that is not valid JSON, or valid JSON that is not an
object, is treated as the empty object: loading is total (never throws),
behaves exactly as loading an empty object, and the document degrades to
the full defaults. -/
theorem malformedFile_degrades_to_defaults :
    loadDocument FileContent.invalid = loadDocument (FileContent.object emptyPartialDoc)
    ∧ loadDocument FileContent.jsonNonObject
      = loadDocument (FileContent.object emptyPartialDoc)
    ∧ (loadDocument FileContent.invalid).1 = defaultSettings
    ∧ (loadDocument FileContent.jsonNonObject).1 = defaultSettings
    ∧ initializeStore FileContent.invalid = StoreState.ready defaultSettings
    ∧ initializeStore FileContent.jsonNonObject = StoreState.ready defaultSettings := by
  refine ⟨rfl, rfl, rfl, rfl, rfl, rfl⟩

/-- Merging any partial onto a document that carries a notifications object
yields a document that still carries one. -/
theorem mergeDoc_preserves_notifications
    (d : SettingsDocument) (p : PartialSettingsDocument)
    (h : (d.interface.notifications).isSome = true) :
    ((mergeDoc d p).interface.notifications).isSome = true := by
  simp only [mergeDoc]
  cases hp : p.interface with
  | none => simpa using h
  | some pi =>
      cases hpn : pi.notifications with
      | none => simpa [mergeInterface, hpn] using h
      | some pn => simp [mergeInterface, hpn]

/-- Reloading the serialized form of a document that carries a notifications
object reproduces the document: the deep merge onto the defaults changes
nothing because every known field is present. -/
theorem mergeDoc_defaults_toPartialView
    (d : SettingsDocument) (h : (d.interface.notifications).isSome = true) :
    mergeDoc defaultSettings (toPartialView d) = d := by
  obtain ⟨cep, ll, sp, mc, ct, hc, mid, mdls, ifc⟩ := d
  obtain ⟨cs, lang, notif⟩ := ifc
  cases notif with
  | none => simp at h
  | some n =>
      obtain ⟨en, ss, se, st, ntfy⟩ := n
      cases ntfy <;> cases mdls <;> rfl

/-- C4: a successful updateConfig (or updateInterface) commits the merged
document, and a fresh Store initialized against the file that was written
returns that document from getConfig and getInterface: the update round
trips through the on-disk file. -/
theorem update_roundTrips_through_disk
    (d : SettingsDocument) (p : PartialSettingsDocument)
    (pi : PartialInterfaceSettings)
    (h : (d.interface.notifications).isSome = true) :
    updateConfig (StoreState.ready d) p true
      = (StoreState.ready (mergeDoc d p), Except.ok ())
    ∧ getConfig (initializeStore (serializeDoc (mergeDoc d p)))
      = Except.ok (mergeDoc d p)
    ∧ updateInterface (StoreState.ready d) pi true
      = (StoreState.ready (mergeDoc d (interfaceOnlyPatch pi)), Except.ok ())
    ∧ getInterface (initializeStore (serializeDoc (mergeDoc d (interfaceOnlyPatch pi))))
      = Except.ok (mergeDoc d (interfaceOnlyPatch pi)).interface := by
  refine ⟨rfl, ?_, rfl, ?_⟩
  · have hr := mergeDoc_defaults_toPartialView (mergeDoc d p)
      (mergeDoc_preserves_notifications d p h)
    simp [initializeStore, serializeDoc, loadDocument, loadObject, getConfig, hr]
  · have hr := mergeDoc_defaults_toPartialView (mergeDoc d (interfaceOnlyPatch pi))
      (mergeDoc_preserves_notifications d (interfaceOnlyPatch pi) h)
    simp [initializeStore, serializeDoc, loadDocument, loadObject, getInterface, hr]

/-- Witness for C4 at a concrete update: starting from the defaults, an
update that sets colorScheme to light round trips through the serialized
file. -/
theorem update_roundTrips_through_disk_witness :
    (defaultSettings.interface.notifications).isSome = true
    ∧ getInterface (initializeStore (serializeDoc (mergeDoc defaultSettings
        (interfaceOnlyPatch
          { colorScheme := some ColorScheme.light
            language := none
            notifications := none }))))
      = Except.ok (mergeDoc defaultSettings
          (interfaceOnlyPatch
            { colorScheme := some ColorScheme.light
              language := none
              notifications := none })).interface :=
  ⟨rfl, (update_roundTrips_through_disk defaultSettings emptyPartialDoc
    { colorScheme := some ColorScheme.light
      language := none
      notifications := none } rfl).2.2.2⟩

/-- Value of a top-level property of the settings document, as seen through
JavaScript property access on the parsed config object. -/
inductive CVal where
  | str (s : String)
  | int (n : Int)
  | level (l : LogLevel)
  | iface (i : InterfaceSettings)
  | modelMap (m : List (String × List ModelInfo))
deriving DecidableEq

/-- JavaScript property lookup on the config object returned by getConfig:
each declared property of the SettingsDocument answers under its own name,
every other name is undefined. -/
def configProp (d : SettingsDocument) : String → Option CVal
  | "claudeExecutablePath" => some (CVal.str d.claudeExecutablePath)
  | "logLevel" => some (CVal.level d.logLevel)
  | "serverPort" => some (CVal.int d.serverPort)
  | "maxConversations" => some (CVal.int d.maxConversations)
  | "conversationTimeout" => some (CVal.int d.conversationTimeout)
  | "healthCheckInterval" => some (CVal.int d.healthCheckInterval)
  | "machine_id" => some (CVal.str d.machine_id)
  | "models" => d.models.map CVal.modelMap
  | "interface" => some (CVal.iface d.interface)
  | _ => none

/-- Embedded from src/src/routes/system.routes.ts lines 153 to 164: the
status response field machineId is assigned config.machine_id. -/
def systemStatusMachineId (d : SettingsDocument) : String := d.machine_id

/-- C8 counterexample: the document returned by getConfig has no property
named machineId at all, so the status endpoint cannot be reading one: at
the default document the claimed equality of the reported value with the
machineId field fails (the lookup of machineId is undefined while the
endpoint reports a string). -/
theorem statusMachineId_counterexample :
    configProp defaultSettings "machineId" = none
    ∧ ¬ configProp defaultSettings "machineId"
        = some (CVal.str (systemStatusMachineId defaultSettings)) := by
  refine ⟨rfl, ?_⟩
  intro hc
  rw [show configProp defaultSettings "machineId" = none from rfl] at hc
  exact Option.noConfusion hc

/-- C8 amended: for every initialized Store the status endpoint reports the
value of the machine_id field of the document returned by getConfig; the
schema field is named machine_id, machineId is only the name of the
response field. -/
theorem statusMachineId_reads_machine_id (d : SettingsDocument) :
    getConfig (StoreState.ready d) = Except.ok d
    ∧ systemStatusMachineId d = d.machine_id
    ∧ configProp d "machine_id" = some (CVal.str d.machine_id) :=
  ⟨rfl, rfl, rfl⟩

/-- Broadcast message handed to webPushService.broadcast, reduced to the
fields the notification service fills in. -/
structure BroadcastMsg where
  title : String
  message : String
  tag : String
deriving DecidableEq

/-- Embedded from src/src/services/notification-service.ts lines 171 to
174: notifications are enabled when config.interface.notifications exists
and its enabled flag is true; an absent notifications object counts as
disabled. -/
def isEnabled (c : SettingsDocument) : Bool :=
  match c.interface.notifications with
  | some n => n.enabled
  | none => false

/-- Embedded from src/src/services/notification-service.ts lines 180 to
226: the permission notification returns without broadcasting when
notifications are disabled or web push is not enabled, and otherwise
broadcasts a single message. -/
def sendPermissionNotification (c : SettingsDocument) (webPushEnabled : Bool)
    (toolName toolInputJson : String) (summary : Option String) : List BroadcastMsg :=
  if isEnabled c then
    if webPushEnabled then
      [{ title := "CUI Permission Request"
         message :=
           match summary with
           | some s => s ++ " - " ++ toolName
           | none => toolName ++ " tool: " ++ toolInputJson.take 100 ++ "..."
         tag := "cui-permission" }]
    else []
  else []

/-- Embedded from src/src/services/notification-service.ts lines 232 to
276: the conversation-end notification returns without broadcasting when
notifications are disabled or web push is not enabled. -/
def sendConversationEndNotification (c : SettingsDocument) (webPushEnabled : Bool)
    (summary : Option String) : List BroadcastMsg :=
  if isEnabled c then
    if webPushEnabled then
      [{ title := "Task Finished"
         message := summary.getD "Task completed"
         tag := "cui-complete" }]
    else []
  else []

/-- C9: when interface.notifications is absent, or present with enabled
false, both notification entry points return without invoking
webPushService.broadcast, whatever the web push state and payload. -/
theorem disabled_notifications_never_broadcast
    (c : SettingsDocument) (webPushEnabled : Bool)
    (toolName toolInputJson : String) (summary endSummary : Option String)
    (h : c.interface.notifications = none
      ∨ ∃ n, c.interface.notifications = some n ∧ n.enabled = false) :
    sendPermissionNotification c webPushEnabled toolName toolInputJson summary = []
    ∧ sendConversationEndNotification c webPushEnabled endSummary = [] := by
  have he : isEnabled c = false := by
    rcases h with h | ⟨n, hn, hen⟩
    · simp [isEnabled, h]
    · simp [isEnabled, hn, hen]
  constructor <;> simp [sendPermissionNotification, sendConversationEndNotification, he]

/-- Witness for C9 at a concrete document with notifications disabled. -/
theorem disabled_notifications_never_broadcast_witness :
    sendPermissionNotification
      { defaultSettings with interface :=
          { defaultInterfaceSettings with notifications := none } }
      true "Bash" "input" none = []
    ∧ sendConversationEndNotification
      { defaultSettings with interface :=
          { defaultInterfaceSettings with notifications := none } }
      true (some "done") = [] :=
  disabled_notifications_never_broadcast
    { defaultSettings with interface :=
        { defaultInterfaceSettings with notifications := none } }
    true "Bash" "input" none (some "done") (Or.inl rfl)

/-- Embedded from src/src/services/model-info-service.ts lines 15 to 20:
the ModelData record; lastUpdated carries an opaque timestamp string. -/
structure ModelData where
  models : List ModelInfo
  defaultModel : String
  lastUpdated : String
  fromCache : Bool
deriving DecidableEq

/-- Embedded from src/src/services/model-info-service.ts lines 33 to 43:
the hardcoded FALLBACK_DATA; the constructor timestamp (new Date at
construction time) is abstracted as the parameter fbTime. -/
def fallbackData (fbTime : String) : ModelData :=
  { models :=
      [ { value := "default", label := "Default (Sonnet)"
          description := "Recommended adaptive model" }
      , { value := "sonnet", label := "Sonnet"
          description := "Latest Sonnet for daily coding tasks" }
      , { value := "opus", label := "Opus"
          description := "Most capable for complex reasoning" }
      , { value := "haiku", label := "Haiku"
          description := "Fast and efficient for simple tasks" } ]
    defaultModel := "sonnet"
    lastUpdated := fbTime
    fromCache := true }

/-- Embedded from src/src/services/model-info-service.ts lines 316 to 338:
the disk cache is rejected when any of models, defaultModel or lastUpdated
is falsy; in the typed model the models array is always present, and a
string is falsy exactly when it is empty. -/
def loadFromDiskCache (raw : Option ModelData) : Option ModelData :=
  match raw with
  | none => none
  | some c =>
      if c.defaultModel = "" ∨ c.lastUpdated = "" then none else some c

/-- Embedded from src/src/services/model-info-service.ts lines 98 to 145:
initialize takes the models of the claude-code key of config.models when
that key is present (an empty array is truthy and is taken as-is), else
falls back to the validated disk cache, else to FALLBACK_DATA.  The first
model drives defaultModel through models[0]?.value with a fallback to the
string default when absent or empty. -/
def miInitialize (fbTime : String) (cfg : SettingsDocument)
    (rawCache : Option ModelData) (now : String) : ModelData :=
  match Option.bind cfg.models (List.lookup "claude-code") with
  | some ms =>
      { models := ms
        defaultModel :=
          match ms.head? with
          | some m => if m.value = "" then "default" else m.value
          | none => "default"
        lastUpdated := now
        fromCache := false }
  | none =>
      match loadFromDiskCache rawCache with
      | some c => { c with fromCache := true }
      | none => fallbackData fbTime

/-- Embedded from src/src/services/model-info-service.ts lines 363 to 368:
getModelData returns the cached data, or FALLBACK_DATA when none has been
loaded; as a total function it never throws. -/
def getModelData (fbTime : String) (md : Option ModelData) : ModelData :=
  match md with
  | none => fallbackData fbTime
  | some m => m

/-- Embedded from src/src/services/model-info-service.ts lines 343 to 348:
getAvailableModels returns the cached model list, or the FALLBACK_DATA
list when none has been loaded. -/
def getAvailableModels (fbTime : String) (md : Option ModelData) : List ModelInfo :=
  match md with
  | none => (fallbackData fbTime).models
  | some m => m.models

/-- Embedded from src/src/services/model-info-service.ts lines 353 to 358:
getDefaultModelInfo returns the cached default model, or the FALLBACK_DATA
default when none has been loaded. -/
def getDefaultModelInfo (fbTime : String) (md : Option ModelData) : String :=
  match md with
  | none => (fallbackData fbTime).defaultModel
  | some m => m.defaultModel

/-- Embedded from src/src/services/model-info-service.ts lines 209 to 293:
parseClaudeResponse substitutes FALLBACK_DATA when the regular-expression
scan extracted zero models, and otherwise returns the extracted models
with fromCache false.  The regular-expression extraction over the response
text and the derived default-model string are abstracted as the parameters
extracted and computedDefault. -/
def parseClaudeResponse (fbTime : String) (extracted : List ModelInfo)
    (computedDefault : String) (now : String) : ModelData :=
  match extracted with
  | [] => fallbackData fbTime
  | ms =>
      { models := ms
        defaultModel := computedDefault
        lastUpdated := now
        fromCache := false }

/-- C10 counterexample: a config whose models map carries the claude-code
key with an empty array is truthy in the initialize check, so initialize
stores an empty model list and getAvailableModels and getModelData then
return an empty models list: the list is not always non-empty. -/
theorem modelList_can_be_empty :
    getAvailableModels "t0"
      (some (miInitialize "t0"
        { defaultSettings with models := some [("claude-code", [])] } none "t1"))
      = []
    ∧ (getModelData "t0"
        (some (miInitialize "t0"
          { defaultSettings with models := some [("claude-code", [])] } none "t1"))).models
      = [] := by
  refine ⟨rfl, rfl⟩

/-- C10 amended: in every state the three accessors are total (never throw)
and fall back to FALLBACK_DATA when no model data has been loaded, and
parseClaudeResponse substitutes FALLBACK_DATA whenever it extracts zero
models; the FALLBACK_DATA list itself is non-empty, but the stored list
can be empty when the config or the disk cache supplies an empty model
list for the claude-code key. -/
theorem accessors_fall_back_to_fallbackData
    (fbTime computedDefault now : String) :
    getModelData fbTime none = fallbackData fbTime
    ∧ getAvailableModels fbTime none = (fallbackData fbTime).models
    ∧ getDefaultModelInfo fbTime none = (fallbackData fbTime).defaultModel
    ∧ parseClaudeResponse fbTime [] computedDefault now = fallbackData fbTime
    ∧ (fallbackData fbTime).models ≠ [] := by
  refine ⟨rfl, rfl, rfl, rfl, ?_⟩
  intro hc
  exact List.noConfusion hc

/-- Witness for C5 at a concrete update call in the Uninitialized state. -/
theorem uninitialized_accessors_fail_witness :
    updateConfig StoreState.uninitialized emptyPartialDoc true
      = (StoreState.uninitialized, Except.error StoreError.notInitialized)
    ∧ updateInterface StoreState.uninitialized
        { colorScheme := none, language := none, notifications := none } true
      = (StoreState.uninitialized, Except.error StoreError.notInitialized) :=
  uninitialized_accessors_fail.2.2 emptyPartialDoc
    { colorScheme := none, language := none, notifications := none } true

/-- Witness for C6 at a concrete failing write over the default document. -/
theorem writeFailure_raises_and_leaves_cache_witness :
    updateConfig (StoreState.ready defaultSettings) emptyPartialDoc false
      = (StoreState.ready defaultSettings, Except.error StoreError.storeWriteError) :=
  (writeFailure_raises_and_leaves_cache defaultSettings emptyPartialDoc
    { colorScheme := none, language := none, notifications := none }).1

/-- Witness for the amended C8 at the default document. -/
theorem statusMachineId_reads_machine_id_witness :
    systemStatusMachineId defaultSettings = defaultSettings.machine_id :=
  (statusMachineId_reads_machine_id defaultSettings).2.1

/-- Witness for the amended C10 at concrete strings. -/
theorem accessors_fall_back_to_fallbackData_witness :
    getModelData "t" none = fallbackData "t" :=
  (accessors_fall_back_to_fallbackData "t" "sonnet" "now").1
